import Mathlib

/-!
Shallow embedding of the Smite panel's rathole server lifecycle manager
(`panel/app/rathole_server.py`) and of the core health / reset endpoints
(`panel/app/routers/core_health.py`), together with theorems checking the
repository specification's claims about them.

External effects (process liveness, binary resolution, file deletion,
remote apply) are modelled by explicit oracle structures (`World`,
`ResetWorld`).  The manager's dictionaries are association lists with
Python-dict semantics (insertion order preserved, update in place, unique
keys on every reachable state).  Each operation returns its new state, an
`Except` value mirroring a raised exception where the source can raise,
and a trace of observable events (process stops and launches, log records,
file unlinks, remote pushes).
-/

namespace Smite

/-! ## Python dict as an association list -/

/-- `m.get(k)` / `m[k]`: the first binding of `k`. -/
def dictLookup (k : String) : List (String × α) → Option α
  | [] => none
  | (k', v) :: rest => if k' = k then some v else dictLookup k rest

/-- `k in m`. -/
def dictMem (k : String) (m : List (String × α)) : Bool :=
  (dictLookup k m).isSome

/-- `m[k] = v`: replace in place (keeping the position) if present, else append
(Python 3.7+ dict insertion-order semantics). -/
def dictSet (k : String) (v : α) : List (String × α) → List (String × α)
  | [] => [(k, v)]
  | (k', v') :: rest => if k' = k then (k, v) :: rest else (k', v') :: dictSet k v rest

/-- `del m[k]`.  Removes every binding of `k`; on the unique-key states a
Python dict can reach this agrees with removing the one binding. -/
def dictDel (k : String) : List (String × α) → List (String × α)
  | [] => []
  | (k', v') :: rest => if k' = k then dictDel k rest else (k', v') :: dictDel k rest

theorem dictLookup_dictSet_self (k : String) (v : α) (m : List (String × α)) :
    dictLookup k (dictSet k v m) = some v := by
  induction m with
  | nil => simp [dictSet, dictLookup]
  | cons p rest ih =>
    by_cases h : p.1 = k
    · simp [dictSet, h, dictLookup]
    · simp [dictSet, h, dictLookup, ih]

theorem dictLookup_dictSet_ne (h : j ≠ k) (v : α) (m : List (String × α)) :
    dictLookup j (dictSet k v m) = dictLookup j m := by
  induction m with
  | nil => simp [dictSet, dictLookup, Ne.symm h]
  | cons p rest ih =>
    obtain ⟨k', v'⟩ := p
    by_cases h1 : k' = k
    · subst h1
      simp [dictSet, dictLookup, Ne.symm h]
    · simp [dictSet, h1, dictLookup, ih]

theorem dictLookup_dictDel_self (k : String) (m : List (String × α)) :
    dictLookup k (dictDel k m) = none := by
  induction m with
  | nil => simp [dictDel, dictLookup]
  | cons p rest ih =>
    by_cases h : p.1 = k
    · simp [dictDel, h, ih]
    · simp [dictDel, h, dictLookup, ih]

theorem dictLookup_dictDel_ne (h : j ≠ k) (m : List (String × α)) :
    dictLookup j (dictDel k m) = dictLookup j m := by
  induction m with
  | nil => simp [dictDel]
  | cons p rest ih =>
    obtain ⟨k', v'⟩ := p
    by_cases h1 : k' = k
    · subst h1
      simp [dictDel, dictLookup, Ne.symm h, ih]
    · simp [dictDel, h1, dictLookup, ih]

theorem dictDel_dictSet_self (k : String) (v : α) (m : List (String × α)) :
    dictDel k (dictSet k v m) = dictDel k m := by
  induction m with
  | nil => simp [dictSet, dictDel]
  | cons p rest ih =>
    by_cases h : p.1 = k
    · simp [dictSet, h, dictDel, ih]
    · simp [dictSet, h, dictDel, ih]

theorem dictMem_of_lookup_some {k : String} {m : List (String × α)} {v : α}
    (h : dictLookup k m = some v) : dictMem k m = true := by
  simp [dictMem, h]

theorem dictMem_eq_false_of_lookup_none {k : String} {m : List (String × α)}
    (h : dictLookup k m = none) : dictMem k m = false := by
  simp [dictMem, h]

/-! ## String helpers (kernel-reducible replacements for Python primitives) -/

/-- `s.split(c)` on the character list. -/
def pySplitAux (c : Char) : List Char → List (List Char)
  | [] => [[]]
  | x :: xs =>
      let r := pySplitAux c xs
      if x = c then [] :: r
      else
        match r with
        | [] => [[x]]
        | h :: t => (x :: h) :: t

/-- Python `s.split(c)` for a single-character separator. -/
def pySplit (s : String) (c : Char) : List String :=
  (pySplitAux c s.data).map String.mk

/-- `s.split(':')[1]` guarded by `":" in s` (present iff the split has a
second part). -/
def pySplitSecond (s : String) : Option String :=
  match pySplit s ':' with
  | _ :: p :: _ => some p
  | _ => none

/-- Python `s[-n:]` (the last `n` characters; all of `s` when it is shorter). -/
def strTail (s : String) (n : Nat) : String :=
  String.mk (s.data.drop (s.data.length - n))

/-- `pat` occurs as a contiguous substring of `s`. -/
def strContains (pat s : String) : Prop :=
  ∃ l r, s.data = l ++ (pat.data ++ r)

def digitVal (c : Char) : Nat := c.toNat - '0'.toNat

def natOfDigits (l : List Char) : Nat :=
  l.foldl (fun acc c => acc * 10 + digitVal c) 0

/-- Python `int(s)` restricted to the non-negative decimal literals the
repository actually passes (ports, minutes); anything else raises. -/
def pyIntOfStr (s : String) : Option Int :=
  if s.data ≠ [] ∧ s.data.all Char.isDigit then some (natOfDigits s.data) else none

/-! ## Data model of `rathole_server.py` -/

/-- A value of the `active_servers` dict: the source stores the
`subprocess.Popen` handle under the tunnel id and, additionally, the open
log file handle under the synthetic key `tunnel_id + "_log"`. -/
inductive ServerEntry where
  | proc (pid : Nat)
  | logFile (handle : Nat)
deriving DecidableEq

/-- One `server_configs` record (the dict literal stored at start). -/
structure ServerConfig where
  remote_addr : String
  token : String
  proxy_port : Int
  bind_addr : String
  config_path : String
deriving DecidableEq

/-- The mutable state of one `RatholeServerManager` plus the files it owns
on disk (path ↦ contents). -/
structure ManagerState where
  active_servers : List (String × ServerEntry)
  server_configs : List (String × ServerConfig)
  disk : List (String × String)
deriving DecidableEq

/-- Oracle for everything outside the manager's own state during one
operation: binary resolution, the pid handed out by the OS, process
liveness (`Popen.poll`: `none` = alive, `some c` = exited with code `c`),
the reachability probe, log readback, absorbed termination errors, and
whether deleting a given file succeeds. -/
structure World where
  primaryFound : Bool
  fallbackFound : Bool
  newPid : Nat
  poll : Nat → Option Int
  portReachable : Bool
  probeRaises : Bool
  logReadOk : Bool
  termRaises : Bool
  unlinkOk : String → Bool

/-- Values of a tunnel's protocol-specific `spec` dict. -/
inductive SpecVal where
  | str (s : String)
  | int (n : Int)
  | null
deriving DecidableEq

/-- Observable events of a run: process stops and launches, remote pushes,
file unlinks, and log records. -/
inductive Event where
  | stopCall (tid : String)
  | launched (tid : String) (pid : Nat) (binary : String)
  | applyTunnel (nodeId : String) (tid : String) (payload : List (String × SpecVal))
  | unlinked (path : String)
  | unlinkFailed (path : String)
  | logWarning (msg : String)
  | logError (msg : String)
  | logInfo (msg : String)
deriving DecidableEq

@[simp] def Event.isStopCall : Event → Bool
  | .stopCall _ => true
  | _ => false

@[simp] def Event.isStopCallOf (tid : String) : Event → Bool
  | .stopCall t => t == tid
  | _ => false

@[simp] def Event.isLaunch : Event → Bool
  | .launched _ _ _ => true
  | _ => false

@[simp] def Event.isLaunchOf (tid : String) : Event → Bool
  | .launched t _ _ => t == tid
  | _ => false

@[simp] def Event.isApplyOf (nodeId tid : String) : Event → Bool
  | .applyTunnel n t _ => n == nodeId && t == tid
  | _ => false

/-- A logger record (`logger.warning` / `logger.error` / `logger.info`;
a failed config-file deletion is also logged by the source). -/
@[simp] def Event.isLog : Event → Bool
  | .logWarning _ => true
  | .logError _ => true
  | .logInfo _ => true
  | .unlinkFailed _ => true
  | _ => false

/-! ## `RatholeServerManager.stop_server` -/

/-- `RatholeServerManager.stop_server` (lines 149-182).  Termination
(`terminate`/`wait`, escalating to `kill` on timeout) can fail; every
failure is absorbed by the source's `except` clauses, so the model is a
total function.  The `finally` block always removes the record and the
synthetic `_log` entry; config-file cleanup runs even when no record
exists. -/
def stop_server (w : World) (st : ManagerState) (tid : String) :
    ManagerState × List Event :=
  let (st1, ev1) :=
    match dictLookup tid st.active_servers with
    | some _ =>
        let evTerm :=
          if w.termRaises then
            [Event.logWarning ("Error stopping Rathole server for tunnel " ++ tid)]
          else []
        let act1 := dictDel tid st.active_servers
        let act2 :=
          if dictMem (tid ++ "_log") act1 then dictDel (tid ++ "_log") act1 else act1
        ({ st with active_servers := act2 },
         evTerm ++ [Event.logInfo ("Stopped Rathole server for tunnel " ++ tid)])
    | none => (st, [])
  let (st2, ev2) :=
    match dictLookup tid st1.server_configs with
    | some cfg =>
        if dictMem cfg.config_path st1.disk then
          if w.unlinkOk cfg.config_path then
            ({ st1 with disk := dictDel cfg.config_path st1.disk,
                        server_configs := dictDel tid st1.server_configs },
             [Event.unlinked cfg.config_path])
          else
            ({ st1 with server_configs := dictDel tid st1.server_configs },
             [Event.unlinkFailed cfg.config_path])
        else
          ({ st1 with server_configs := dictDel tid st1.server_configs }, [])
    | none => (st1, [])
  (st2, Event.stopCall tid :: (ev1 ++ ev2))

/-! ## `RatholeServerManager.start_server` -/

def configPath (tid : String) : String := "/app/data/rathole/" ++ tid ++ ".toml"

def logPath (tid : String) : String := "/app/data/rathole/rathole_" ++ tid ++ ".log"

/-- The rendered TOML configuration (lines 47-53). -/
def renderConfig (tid bind_addr token : String) (proxy_port : Int) : String :=
  "[server]\nbind_addr = \"" ++ bind_addr ++ "\"\ndefault_token = \"" ++ token ++
    "\"\n\n[server.services." ++ tid ++ "]\nbind_addr = \"0.0.0.0:" ++
    toString proxy_port ++ "\"\n"

/-- The log preamble written before launching the primary binary. -/
def fullPreamble (tid bind_addr : String) (proxy_port : Int) (cp cfg : String) : String :=
  "Starting rathole server for tunnel " ++ tid ++ "\nConfig: bind_addr=" ++ bind_addr ++
    ", proxy_port=" ++ toString proxy_port ++ "\nConfig file: " ++ cp ++
    "\nConfig content:\n" ++ cfg ++ "\n"

/-- The abbreviated preamble written on the PATH-resolved fallback. -/
def shortPreamble (tid : String) : String :=
  "Starting rathole server (system binary) for tunnel " ++ tid ++ "\n"

/-- The part of `start_server` after a successful `Popen` (lines 97-142):
store the log-handle and process entries, sleep ~1s, re-poll; on death read
the log tail, roll the map entries back and raise; otherwise run the
advisory reachability probe and return `True`. -/
def afterLaunch (w : World) (st : ManagerState) (tid bind_addr portStr : String)
    (binary : String) : ManagerState × Except String Bool × List Event :=
  let st5 := { st with
    active_servers :=
      dictSet tid (ServerEntry.proc w.newPid)
        (dictSet (tid ++ "_log") (ServerEntry.logFile 0) st.active_servers) }
  match w.poll w.newPid with
  | some code =>
      let lp := logPath tid
      let msg :=
        if w.logReadOk then
          let content :=
            if dictMem lp st5.disk then (dictLookup lp st5.disk).getD ""
            else "Log file not found"
          "rathole server failed to start (exit code: " ++ toString code ++ "): " ++
            (if content.length > 500 then strTail content 500 else content)
        else
          "rathole server failed to start (exit code: " ++ toString code ++
            "), could not read log"
      let act1 := dictDel tid st5.active_servers
      let act2 :=
        if dictMem (tid ++ "_log") act1 then dictDel (tid ++ "_log") act1 else act1
      let st6 := { st5 with active_servers := act2,
                            server_configs := dictDel tid st5.server_configs }
      (st6, Except.error msg,
       [Event.launched tid w.newPid binary, Event.logError msg,
        Event.logError ("Failed to start Rathole server for tunnel " ++ tid ++ ": " ++ msg)])
  | none =>
      let evProbe :=
        match pyIntOfStr portStr with
        | none => [Event.logWarning "Could not verify rathole server port is listening"]
        | some _ =>
            if w.probeRaises then
              [Event.logWarning "Could not verify rathole server port is listening"]
            else if w.portReachable then []
            else
              [Event.logWarning
                "Rathole server port not listening after start, but process is running"]
      (st5, Except.ok true,
       Event.launched tid w.newPid binary ::
         (evProbe ++ [Event.logInfo ("Started Rathole server for tunnel " ++ tid ++
           " on " ++ bind_addr)]))

/-- Lines 46-142 of `start_server`, acting on the state in which any old
record has already been stopped: write the rendered config file, store the
`server_configs` record, write the log preamble, launch (primary binary,
then PATH fallback; both missing propagates the `FileNotFoundError`), then
hand over to `afterLaunch`. -/
def startLaunchPhase (w : World) (st1 : ManagerState) (tid remote_addr token : String)
    (proxy_port : Int) (portStr : String) : ManagerState × Except String Bool × List Event :=
  let bind_addr := "0.0.0.0:" ++ portStr
  let cfg := renderConfig tid bind_addr token proxy_port
  let cp := configPath tid
  let newCfg : ServerConfig := ⟨remote_addr, token, proxy_port, bind_addr, cp⟩
  let cfgs := dictSet tid newCfg st1.server_configs
  let disk2 := dictSet cp cfg st1.disk
  let lp := logPath tid
  match w.primaryFound, w.fallbackFound with
  | true, _ =>
    afterLaunch w
      ⟨st1.active_servers, cfgs,
        dictSet lp (fullPreamble tid bind_addr proxy_port cp cfg) disk2⟩
      tid bind_addr portStr "/usr/local/bin/rathole"
  | false, true =>
    afterLaunch w ⟨st1.active_servers, cfgs, dictSet lp (shortPreamble tid) disk2⟩
      tid bind_addr portStr "rathole"
  | false, false =>
    (⟨st1.active_servers, cfgs, dictSet lp (shortPreamble tid) disk2⟩,
     Except.error "FileNotFoundError",
     [Event.logError ("Failed to start Rathole server for tunnel " ++ tid ++
       ": FileNotFoundError")])

/-- `RatholeServerManager.start_server` (lines 20-147).  Parses
`remote_addr` (raising `ValueError` when it has no `:`), stops any
existing record for the tunnel id first, then runs the launch phase.  The
`Except.error` payload is the message of the exception the source
raises. -/
def start_server (w : World) (st : ManagerState) (tid remote_addr token : String)
    (proxy_port : Int) : ManagerState × Except String Bool × List Event :=
  match pySplitSecond remote_addr with
  | none =>
      (st, Except.error ("Invalid remote_addr format: " ++ remote_addr),
       [Event.logError ("Failed to start Rathole server for tunnel " ++ tid ++
         ": Invalid remote_addr format: " ++ remote_addr)])
  | some portStr =>
      if dictMem tid st.active_servers then
        let sp := stop_server w st tid
        let r := startLaunchPhase w sp.1 tid remote_addr token proxy_port portStr
        (r.1, r.2.1,
         (Event.logWarning ("Rathole server for tunnel " ++ tid ++
           " already exists, stopping it first") :: sp.2) ++ r.2.2)
      else startLaunchPhase w st tid remote_addr token proxy_port portStr

/-! ## `is_running`, `get_active_servers`, `cleanup_all` -/

/-- `RatholeServerManager.is_running` (lines 184-189).  Looks the record up
and polls the stored handle; polling a `_log` entry (a file handle) would
raise `AttributeError`, which the source does not catch. -/
def is_running (w : World) (st : ManagerState) (tid : String) : Except String Bool :=
  match dictLookup tid st.active_servers with
  | none => Except.ok false
  | some (ServerEntry.proc pid) => Except.ok (w.poll pid == none)
  | some (ServerEntry.logFile _) => Except.error "AttributeError: poll"

/-- The loop body of `get_active_servers` over the snapshot of
`active_servers.items()`: live entries are collected, dead entries are
pruned from both maps, and a `_log` entry (a file handle) raises
`AttributeError` out of the loop, keeping whatever state mutations already
happened. -/
def pruneDead (poll : Nat → Option Int) :
    List (String × ServerEntry) → ManagerState → List String →
    ManagerState × Except String (List String)
  | [], st, acc => (st, Except.ok acc)
  | (_, ServerEntry.logFile _) :: _, st, _ => (st, Except.error "AttributeError: poll")
  | (k, ServerEntry.proc pid) :: rest, st, acc =>
      if poll pid = none then pruneDead poll rest st (acc ++ [k])
      else
        pruneDead poll rest
          ({ st with active_servers := dictDel k st.active_servers,
                     server_configs := dictDel k st.server_configs })
          acc

/-- `RatholeServerManager.get_active_servers` (lines 191-203). -/
def get_active_servers (w : World) (st : ManagerState) :
    ManagerState × Except String (List String) :=
  pruneDead w.poll st.active_servers st []

/-- `for tunnel_id in tunnel_ids: self.stop_server(tunnel_id)`. -/
def stopAll (ws : String → World) (st : ManagerState) :
    List String → ManagerState × List Event
  | [] => (st, [])
  | k :: ks =>
      let r1 := stop_server (ws k) st k
      let r2 := stopAll ws r1.1 ks
      (r2.1, r1.2 ++ r2.2)

/-- `RatholeServerManager.cleanup_all` (lines 205-209): stop every key in
the snapshot of `active_servers` — including the synthetic `_log` keys. -/
def cleanup_all (ws : String → World) (st : ManagerState) :
    ManagerState × List Event :=
  stopAll ws st (st.active_servers.map Prod.fst)

/-! ## `core_health.py`: reset-schedule configuration -/

deriving instance DecidableEq for Except

def CORES : List String := ["backhaul", "rathole", "chisel", "frp"]

/-- Persisted `CoreResetConfig` row.  Timestamps are seconds. -/
structure CoreResetConfig where
  core : String
  enabled : Bool
  interval_minutes : Int
  last_reset : Option Int
  next_reset : Option Int
  updated_at : Option Int
deriving DecidableEq

/-- Request body of `PUT /reset-config/{core}` (`ResetConfigUpdate`). -/
structure ResetConfigUpdate where
  enabled : Option Bool
  interval_minutes : Option Int
deriving DecidableEq

/-- Row created lazily when none exists (`enabled=False, interval_minutes=10`). -/
def defaultResetConfig (core : String) : CoreResetConfig :=
  ⟨core, false, 10, none, none, none⟩

/-- Lines 180-186: `next_reset` is recomputed from the (possibly updated)
`enabled`/`interval_minutes`/`last_reset`; a Python-falsy interval (0)
disables it, and `timedelta(minutes=m)` is `m * 60` seconds. -/
def computeNextReset (enabled : Bool) (interval : Int) (last : Option Int)
    (now : Int) : Option Int :=
  if enabled = true ∧ interval ≠ 0 then some (last.getD now + interval * 60) else none

/-- `update_reset_config` (lines 155-198).  The SQLAlchemy session commits
only at the end of the handler; an `HTTPException` raised before the commit
(unknown core, or `interval_minutes < 1`) leaves the persisted store
untouched, so the error branches return the incoming `db`.  The `Except`
error payload is the HTTP status code. -/
def update_reset_config (db : List (String × CoreResetConfig)) (core : String)
    (upd : ResetConfigUpdate) (now : Int) :
    List (String × CoreResetConfig) × Except Nat CoreResetConfig :=
  if core ∈ CORES then
    let config0 := (dictLookup core db).getD (defaultResetConfig core)
    let config1 :=
      match upd.enabled with
      | some e => { config0 with enabled := e }
      | none => config0
    match upd.interval_minutes with
    | some m =>
        if m < 1 then (db, Except.error 400)
        else
          let config2 := { config1 with interval_minutes := m }
          let nr := computeNextReset config2.enabled config2.interval_minutes
            config2.last_reset now
          let config3 := { config2 with next_reset := nr, updated_at := some now }
          (dictSet core config3 db, Except.ok config3)
    | none =>
        let nr := computeNextReset config1.enabled config1.interval_minutes
          config1.last_reset now
        let config3 := { config1 with next_reset := nr, updated_at := some now }
        (dictSet core config3 db, Except.ok config3)
  else (db, Except.error 400)

/-! ## `_reset_core` (rathole branch) -/

/-- Python truthiness of `spec.get(key)`. -/
def truthy : Option SpecVal → Bool
  | none => false
  | some SpecVal.null => false
  | some (SpecVal.str s) => s != ""
  | some (SpecVal.int n) => n != 0

/-- Python `a or b`. -/
def pyOr (a b : Option SpecVal) : Option SpecVal := if truthy a then a else b

/-- Python `int(v)`; `none` models the raised `TypeError`/`ValueError`. -/
def specToInt : SpecVal → Option Int
  | SpecVal.int n => some n
  | SpecVal.str s => pyIntOfStr s
  | SpecVal.null => none

/-- Python `f"{v}"`. -/
def specValFmt : SpecVal → String
  | SpecVal.str s => s
  | SpecVal.int n => toString n
  | SpecVal.null => "None"

def optValFmt (o : Option SpecVal) : String := specValFmt (o.getD SpecVal.null)

/-- One row of the persisted `Tunnel` table, as `_reset_core` reads it. -/
structure TunnelRow where
  id : String
  core : String
  status : String
  node_id : Option String
  spec : List (String × SpecVal)
deriving DecidableEq

/-- The rathole arm of `_reset_core`'s local-restart loop (lines 245-263):
a tunnel whose `remote_addr`/`token`/`remote_port|listen_port` are not all
truthy is skipped with no stop, no start and no log record; otherwise the
local server is stopped and restarted, and any exception from the body is
caught and logged without aborting the batch. -/
def resetOneLocal (w : World) (st : ManagerState) (t : TunnelRow) :
    ManagerState × List Event :=
  let ra := dictLookup "remote_addr" t.spec
  let tok := dictLookup "token" t.spec
  let pp := pyOr (dictLookup "remote_port" t.spec) (dictLookup "listen_port" t.spec)
  if truthy ra && truthy tok && truthy pp then
    let sp := stop_server w st t.id
    match ra, tok, specToInt (pp.getD SpecVal.null) with
    | some (SpecVal.str raS), some (SpecVal.str tokS), some ppI =>
        let r := start_server w sp.1 t.id raS tokS ppI
        match r.2.1 with
        | Except.ok _ => (r.1, sp.2 ++ r.2.2)
        | Except.error m =>
            (r.1, sp.2 ++ r.2.2 ++
              [Event.logError ("Error restarting rathole server for tunnel " ++
                t.id ++ ": " ++ m)])
    | _, _, _ =>
        (sp.1, sp.2 ++
          [Event.logError ("Error restarting rathole server for tunnel " ++ t.id)])
  else (st, [])

def resetLocal (ws : String → World) (st : ManagerState) :
    List TunnelRow → ManagerState × List Event
  | [] => (st, [])
  | t :: rest =>
      let r1 := resetOneLocal (ws t.id) st t
      let r2 := resetLocal ws r1.1 rest
      (r2.1, r1.2 ++ r2.2)

/-- The rathole client-side payload re-derived for a node (lines 320-332);
`none` models the `TypeError` raised when `remote_addr` holds a non-string,
which the per-tunnel handler catches and logs. -/
def ratholeNodeSpec (spec : List (String × SpecVal)) :
    Option (List (String × SpecVal)) :=
  match (dictLookup "remote_addr" spec).getD (SpecVal.str "") with
  | SpecVal.str raS =>
      let host := if (pySplit raS ':').length ≥ 2 then (pySplit raS ':').headD "" else raS
      let rp := pyOr (dictLookup "remote_port" spec) (dictLookup "listen_port" spec)
      let tokenV := (dictLookup "token" spec).getD SpecVal.null
      let la := (dictLookup "local_addr" spec).getD (SpecVal.str "127.0.0.1")
      let lpv := (dictLookup "local_port" spec).getD SpecVal.null
      some [("remote_addr", SpecVal.str (host ++ ":" ++ optValFmt rp)),
            ("token", tokenV), ("local_addr", la), ("local_port", lpv)]
  | _ => none

/-- One `client.apply_tunnel` push (lines 314-375): the payload is pushed,
and a failing push (or a failing payload derivation) is logged without
aborting the loop. -/
def resetOneRemote (applyOk : String → Bool) (nodeId : String) (t : TunnelRow) :
    List Event :=
  match ratholeNodeSpec t.spec with
  | some payload =>
      if applyOk t.id then [Event.applyTunnel nodeId t.id payload]
      else
        [Event.applyTunnel nodeId t.id payload,
         Event.logError ("Error restarting rathole client for tunnel " ++ t.id ++
           " on node " ++ nodeId)]
  | none =>
      [Event.logError ("Error restarting rathole client for tunnel " ++ t.id ++
        " on node " ++ nodeId)]

/-- `set(t.node_id for t in active_tunnels if t.node_id)`, with the set
modelled in first-appearance order. -/
def dedupFirst (l : List String) : List String :=
  l.foldl (fun acc x => if x ∈ acc then acc else acc ++ [x]) []

def truthyStr : Option String → Bool
  | none => false
  | some s => s != ""

/-- The remote-apply half of `_reset_core` (lines 303-375). -/
def resetRemote (applyOk : String → Bool) (tunnels : List TunnelRow)
    (nodes : List String) : List Event :=
  let node_ids := dedupFirst ((tunnels.filter (fun t => truthyStr t.node_id)).filterMap
    (fun t => t.node_id))
  node_ids.foldl
    (fun evs nid =>
      if nid ∈ nodes then
        evs ++ (tunnels.filter (fun t => t.node_id == some nid)).foldl
          (fun es t => es ++ resetOneRemote applyOk nid t) []
      else evs)
    []

/-- External outcomes for one reset pass: a manager-operation oracle per
tunnel id and the per-tunnel success of `apply_tunnel`. -/
structure ResetWorld where
  mgr : String → World
  applyOk : String → Bool

/-- `_reset_core(core="rathole", ...)` (lines 225-375), with the rathole
manager present on the application state: filter the active tunnels of the
core, run the local stop/start loop, then push re-derived client configs
to each distinct existing node. -/
def reset_core_rathole (rw : ResetWorld) (st : ManagerState)
    (tunnels : List TunnelRow) (nodes : List String) : ManagerState × List Event :=
  let active := tunnels.filter (fun t => t.core == "rathole" && t.status == "active")
  let r := resetLocal rw.mgr st active
  (r.1, r.2 ++ resetRemote rw.applyOk active nodes)

/-! ## Helper lemmas -/

theorem ne_append_log (tid : String) : tid ≠ tid ++ "_log" := by
  intro h
  have h2 := congrArg String.length h
  rw [String.length_append] at h2
  have h3 : ("_log" : String).length = 4 := rfl
  rw [h3] at h2
  omega

theorem logPath_ne_configPath (tid : String) : logPath tid ≠ configPath tid := by
  intro h
  have h2 := congrArg String.length h
  simp only [logPath, configPath, String.length_append] at h2
  have a1 : ("/app/data/rathole/rathole_" : String).length = 26 := rfl
  have a2 : (".log" : String).length = 4 := rfl
  have a3 : ("/app/data/rathole/" : String).length = 18 := rfl
  have a4 : (".toml" : String).length = 5 := rfl
  rw [a1, a2, a3, a4] at h2
  omega

theorem dictLookup_eq_none_of_mem_false {k : String} {m : List (String × α)}
    (h : dictMem k m = false) : dictLookup k m = none := by
  cases h' : dictLookup k m with
  | none => rfl
  | some v => rw [dictMem, h'] at h; simp at h

/-- The source's `x[-500:] if len(x) > 500 else x` is `strTail x 500`. -/
theorem tail_if_eq (s : String) : (if s.length > 500 then strTail s 500 else s) = strTail s 500 := by
  by_cases h : s.length > 500
  · simp [h]
  · cases s with
    | mk data =>
      have h2 : data.length - 500 = 0 := by
        simp only [String.length] at h
        omega
      simp [h, strTail, h2]

theorem strContains_of_eq_append (pat a b s : String) (h : s = a ++ pat ++ b) :
    strContains pat s := by
  refine ⟨a.data, b.data, ?_⟩
  rw [h]
  simp [String.data_append]

/-! ### `stop_server` lemmas -/

theorem stop_server_active_tid (w : World) (st : ManagerState) (tid : String) :
    dictLookup tid (stop_server w st tid).1.active_servers = none := by
  cases hA : dictLookup tid st.active_servers with
  | none =>
    cases hC : dictLookup tid st.server_configs with
    | none => simp [stop_server, hA, hC]
    | some cfg => simp [stop_server, hA, hC]; split_ifs <;> simp [hA]
  | some e =>
    cases hC : dictLookup tid st.server_configs with
    | none =>
      simp [stop_server, hA, hC]
      split_ifs <;>
        simp [dictLookup_dictDel_self, dictLookup_dictDel_ne (ne_append_log tid)]
    | some cfg =>
      simp [stop_server, hA, hC]
      split_ifs <;>
        simp [dictLookup_dictDel_self, dictLookup_dictDel_ne (ne_append_log tid)]

theorem dictLookup_mem_guard_del (k : String) (m : List (String × α)) :
    dictLookup k (if dictMem k m then dictDel k m else m) = none := by
  by_cases hM : dictMem k m
  · simp [hM, dictLookup_dictDel_self]
  · simp [hM]
    exact dictLookup_eq_none_of_mem_false (by simpa using hM)

theorem stop_server_active_log (w : World) (st : ManagerState) (tid : String)
    (e : ServerEntry) (hA : dictLookup tid st.active_servers = some e) :
    dictLookup (tid ++ "_log") (stop_server w st tid).1.active_servers = none := by
  have key := dictLookup_mem_guard_del (α := ServerEntry) (tid ++ "_log")
    (dictDel tid st.active_servers)
  cases hC : dictLookup tid st.server_configs with
  | none => simpa [stop_server, hA, hC] using key
  | some cfg =>
    by_cases hd : dictMem cfg.config_path st.disk
    · by_cases hu : w.unlinkOk cfg.config_path
      · simpa [stop_server, hA, hC, hd, hu] using key
      · simpa [stop_server, hA, hC, hd, hu] using key
    · simpa [stop_server, hA, hC, hd] using key

theorem stop_server_configs_tid (w : World) (st : ManagerState) (tid : String) :
    dictLookup tid (stop_server w st tid).1.server_configs = none := by
  cases hA : dictLookup tid st.active_servers <;>
  cases hC : dictLookup tid st.server_configs <;>
    (simp [stop_server, hA, hC];
     try (split_ifs <;> simp [dictLookup_dictDel_self, hC]))

theorem stop_server_disk_clean (w : World) (st : ManagerState) (tid : String)
    (cfg : ServerConfig) (hC : dictLookup tid st.server_configs = some cfg)
    (hmem : dictMem cfg.config_path st.disk = true)
    (hok : w.unlinkOk cfg.config_path = true) :
    dictMem cfg.config_path (stop_server w st tid).1.disk = false := by
  have hm2 : (dictLookup cfg.config_path st.disk).isSome = true := by
    simpa [dictMem] using hmem
  cases hA : dictLookup tid st.active_servers <;>
    simp [stop_server, hA, hC, dictMem, hm2, hok, dictLookup_dictDel_self]

theorem stop_server_active_unchanged (w : World) (st : ManagerState) (tid : String)
    (hA : dictLookup tid st.active_servers = none) :
    (stop_server w st tid).1.active_servers = st.active_servers := by
  cases hC : dictLookup tid st.server_configs <;>
    (simp [stop_server, hA, hC]; try (split_ifs <;> simp))

theorem stop_server_noop (w : World) (st : ManagerState) (tid : String)
    (hA : dictLookup tid st.active_servers = none)
    (hC : dictLookup tid st.server_configs = none) :
    (stop_server w st tid).1 = st := by
  simp [stop_server, hA, hC]

theorem stop_server_state_ignores_termination (w w' : World) (st : ManagerState)
    (tid : String) (h : w.unlinkOk = w'.unlinkOk) :
    (stop_server w st tid).1 = (stop_server w' st tid).1 := by
  cases hA : dictLookup tid st.active_servers <;>
  cases hC : dictLookup tid st.server_configs <;>
    simp [stop_server, hA, hC, h]

theorem stop_server_trace_shape (w : World) (st : ManagerState) (tid : String) :
    ∃ tr, (stop_server w st tid).2 = Event.stopCall tid :: tr ∧
      ∀ e ∈ tr, e.isStopCall = false ∧ e.isLaunch = false := by
  cases hA : dictLookup tid st.active_servers <;>
  cases hC : dictLookup tid st.server_configs <;>
    simp [stop_server, hA, hC, or_imp, and_imp] <;>
    aesop

/-! ### `afterLaunch` / `startLaunchPhase` / `start_server` lemmas -/

theorem afterLaunch_result_ok_iff (w : World) (st : ManagerState)
    (tid bind_addr portStr b : String) :
    ((afterLaunch w st tid bind_addr portStr b).2.1 = Except.ok true) ↔
      w.poll w.newPid = none := by
  cases hp : w.poll w.newPid <;> simp [afterLaunch, hp]

theorem afterLaunch_ok_state (w : World) (st : ManagerState)
    (tid bind_addr portStr b : String) (hp : w.poll w.newPid = none) :
    (afterLaunch w st tid bind_addr portStr b).1 =
      ManagerState.mk
        (dictSet tid (ServerEntry.proc w.newPid)
          (dictSet (tid ++ "_log") (ServerEntry.logFile 0) st.active_servers))
        st.server_configs st.disk := by
  simp [afterLaunch, hp]

theorem afterLaunch_dead_state (w : World) (st : ManagerState)
    (tid bind_addr portStr b : String) (c : Int) (hp : w.poll w.newPid = some c) :
    dictLookup tid (afterLaunch w st tid bind_addr portStr b).1.active_servers = none ∧
    dictLookup (tid ++ "_log")
      (afterLaunch w st tid bind_addr portStr b).1.active_servers = none ∧
    (afterLaunch w st tid bind_addr portStr b).1.server_configs =
      dictDel tid st.server_configs ∧
    (afterLaunch w st tid bind_addr portStr b).1.disk = st.disk := by
  have hlog : dictLookup (tid ++ "_log")
      (dictDel tid (dictSet (tid ++ "_log") (ServerEntry.logFile 0) st.active_servers)) =
      some (ServerEntry.logFile 0) := by
    rw [dictLookup_dictDel_ne (Ne.symm (ne_append_log tid)),
      dictLookup_dictSet_self]
  simp only [afterLaunch, hp]
  refine ⟨?_, ?_, ?_, ?_⟩ <;>
    simp [dictDel_dictSet_self, dictMem_of_lookup_some hlog,
      dictLookup_dictDel_self, dictLookup_dictDel_ne (ne_append_log tid),
      dictLookup_dictDel_ne (Ne.symm (ne_append_log tid)), hlog]

theorem afterLaunch_dead_result (w : World) (st : ManagerState)
    (tid bind_addr portStr b : String) (c : Int) (content : String)
    (hp : w.poll w.newPid = some c) (hr : w.logReadOk = true)
    (hL : dictLookup (logPath tid) st.disk = some content) :
    (afterLaunch w st tid bind_addr portStr b).2.1 =
      Except.error ("rathole server failed to start (exit code: " ++ toString c ++
        "): " ++ strTail content 500) := by
  have hm := dictMem_of_lookup_some hL
  simp [afterLaunch, hp, hr, hm, hL, tail_if_eq]

theorem afterLaunch_trace_no_stop (w : World) (st : ManagerState)
    (tid bind_addr portStr b : String) :
    ∀ e ∈ (afterLaunch w st tid bind_addr portStr b).2.2, e.isStopCall = false := by
  cases hp : w.poll w.newPid <;>
    simp [afterLaunch, hp, or_imp, and_imp] <;> aesop

theorem afterLaunch_launched_mem (w : World) (st : ManagerState)
    (tid bind_addr portStr b : String) :
    Event.launched tid w.newPid b ∈ (afterLaunch w st tid bind_addr portStr b).2.2 := by
  cases hp : w.poll w.newPid <;> simp [afterLaunch, hp]

theorem startLaunchPhase_ok_inversion (w : World) (st1 : ManagerState)
    (tid ra tok : String) (pp : Int) (portStr : String)
    (h : (startLaunchPhase w st1 tid ra tok pp portStr).2.1 = Except.ok true) :
    w.poll w.newPid = none ∧
    (startLaunchPhase w st1 tid ra tok pp portStr).1.active_servers =
      dictSet tid (ServerEntry.proc w.newPid)
        (dictSet (tid ++ "_log") (ServerEntry.logFile 0) st1.active_servers) ∧
    (startLaunchPhase w st1 tid ra tok pp portStr).1.server_configs =
      dictSet tid ⟨ra, tok, pp, "0.0.0.0:" ++ portStr, configPath tid⟩
        st1.server_configs ∧
    ∃ L, (startLaunchPhase w st1 tid ra tok pp portStr).1.disk =
      dictSet (logPath tid) L
        (dictSet (configPath tid)
          (renderConfig tid ("0.0.0.0:" ++ portStr) tok pp) st1.disk) := by
  cases hP : w.primaryFound with
  | true =>
    simp only [startLaunchPhase, hP] at h ⊢
    have hp := (afterLaunch_result_ok_iff _ _ _ _ _ _).mp h
    rw [afterLaunch_ok_state _ _ _ _ _ _ hp]
    exact ⟨hp, rfl, rfl, _, rfl⟩
  | false =>
    cases hF : w.fallbackFound with
    | true =>
      simp only [startLaunchPhase, hP, hF] at h ⊢
      have hp := (afterLaunch_result_ok_iff _ _ _ _ _ _).mp h
      rw [afterLaunch_ok_state _ _ _ _ _ _ hp]
      exact ⟨hp, rfl, rfl, _, rfl⟩
    | false => simp [startLaunchPhase, hP, hF] at h

theorem startLaunchPhase_trace_no_stop (w : World) (st1 : ManagerState)
    (tid ra tok : String) (pp : Int) (portStr : String) :
    ∀ e ∈ (startLaunchPhase w st1 tid ra tok pp portStr).2.2, e.isStopCall = false := by
  cases hP : w.primaryFound with
  | true =>
    simp only [startLaunchPhase, hP]
    exact afterLaunch_trace_no_stop _ _ _ _ _ _
  | false =>
    cases hF : w.fallbackFound with
    | true =>
      simp only [startLaunchPhase, hP, hF]
      exact afterLaunch_trace_no_stop _ _ _ _ _ _
    | false => simp [startLaunchPhase, hP, hF]

theorem startLaunchPhase_launched (w : World) (st1 : ManagerState)
    (tid ra tok : String) (pp : Int) (portStr : String)
    (hbin : w.primaryFound = true ∨ w.fallbackFound = true) :
    ∃ b, Event.launched tid w.newPid b ∈
      (startLaunchPhase w st1 tid ra tok pp portStr).2.2 := by
  cases hP : w.primaryFound with
  | true =>
    refine ⟨"/usr/local/bin/rathole", ?_⟩
    simp only [startLaunchPhase, hP]
    exact afterLaunch_launched_mem _ _ _ _ _ _
  | false =>
    have hF : w.fallbackFound = true := by
      rcases hbin with h | h
      · rw [hP] at h; exact absurd h (by simp)
      · exact h
    refine ⟨"rathole", ?_⟩
    simp only [startLaunchPhase, hP, hF]
    exact afterLaunch_launched_mem _ _ _ _ _ _

theorem startLaunchPhase_dead (w : World) (st1 : ManagerState)
    (tid ra tok : String) (pp : Int) (portStr : String) (c : Int)
    (hP : w.primaryFound = true) (hp : w.poll w.newPid = some c)
    (hr : w.logReadOk = true) :
    (startLaunchPhase w st1 tid ra tok pp portStr).2.1 =
      Except.error ("rathole server failed to start (exit code: " ++ toString c ++
        "): " ++ strTail (fullPreamble tid ("0.0.0.0:" ++ portStr) pp (configPath tid)
          (renderConfig tid ("0.0.0.0:" ++ portStr) tok pp)) 500) ∧
    dictLookup tid
      (startLaunchPhase w st1 tid ra tok pp portStr).1.active_servers = none ∧
    dictLookup (tid ++ "_log")
      (startLaunchPhase w st1 tid ra tok pp portStr).1.active_servers = none ∧
    dictLookup tid
      (startLaunchPhase w st1 tid ra tok pp portStr).1.server_configs = none ∧
    dictMem (configPath tid)
      (startLaunchPhase w st1 tid ra tok pp portStr).1.disk = true := by
  simp only [startLaunchPhase, hP, if_true]
  have hL : dictLookup (logPath tid)
      (dictSet (logPath tid)
        (fullPreamble tid ("0.0.0.0:" ++ portStr) pp (configPath tid)
          (renderConfig tid ("0.0.0.0:" ++ portStr) tok pp))
        (dictSet (configPath tid)
          (renderConfig tid ("0.0.0.0:" ++ portStr) tok pp) st1.disk)) =
      some (fullPreamble tid ("0.0.0.0:" ++ portStr) pp (configPath tid)
        (renderConfig tid ("0.0.0.0:" ++ portStr) tok pp)) :=
    dictLookup_dictSet_self _ _ _
  obtain ⟨d1, d2, d3, d4⟩ := afterLaunch_dead_state w
    ⟨st1.active_servers,
      dictSet tid ⟨ra, tok, pp, "0.0.0.0:" ++ portStr, configPath tid⟩ st1.server_configs,
      dictSet (logPath tid)
        (fullPreamble tid ("0.0.0.0:" ++ portStr) pp (configPath tid)
          (renderConfig tid ("0.0.0.0:" ++ portStr) tok pp))
        (dictSet (configPath tid)
          (renderConfig tid ("0.0.0.0:" ++ portStr) tok pp) st1.disk)⟩
    tid ("0.0.0.0:" ++ portStr) portStr "/usr/local/bin/rathole" c hp
  refine ⟨afterLaunch_dead_result _ _ _ _ _ _ _ _ hp hr hL, d1, d2, ?_, ?_⟩
  · rw [d3]
    simp [dictLookup_dictDel_self]
  · rw [d4]
    simp only [dictMem]
    rw [dictLookup_dictSet_ne (Ne.symm (logPath_ne_configPath tid)),
      dictLookup_dictSet_self]
    rfl

theorem start_server_ok_inversion (w : World) (st : ManagerState)
    (tid ra tok : String) (pp : Int)
    (h : (start_server w st tid ra tok pp).2.1 = Except.ok true) :
    ∃ (portStr : String) (st1 : ManagerState),
      pySplitSecond ra = some portStr ∧
      (start_server w st tid ra tok pp).1.active_servers =
        dictSet tid (ServerEntry.proc w.newPid)
          (dictSet (tid ++ "_log") (ServerEntry.logFile 0) st1.active_servers) ∧
      (start_server w st tid ra tok pp).1.server_configs =
        dictSet tid ⟨ra, tok, pp, "0.0.0.0:" ++ portStr, configPath tid⟩
          st1.server_configs ∧
      ∃ L, (start_server w st tid ra tok pp).1.disk =
        dictSet (logPath tid) L
          (dictSet (configPath tid)
            (renderConfig tid ("0.0.0.0:" ++ portStr) tok pp) st1.disk) := by
  cases hs : pySplitSecond ra with
  | none => simp [start_server, hs] at h
  | some portStr =>
    by_cases hm : dictMem tid st.active_servers
    · simp only [start_server, hs, hm, if_true] at h ⊢
      obtain ⟨_, h2, h3, h4⟩ := startLaunchPhase_ok_inversion _ _ _ _ _ _ _ h
      exact ⟨portStr, (stop_server w st tid).1, rfl, h2, h3, h4⟩
    · simp only [start_server, hs, hm, if_false] at h ⊢
      obtain ⟨_, h2, h3, h4⟩ := startLaunchPhase_ok_inversion _ _ _ _ _ _ _ h
      exact ⟨portStr, st, rfl, h2, h3, h4⟩

/-! ### Reset-loop lemmas -/

theorem resetOneLocal_stopCall (w : World) (st : ManagerState) (t : TunnelRow)
    (hc : (truthy (dictLookup "remote_addr" t.spec) &&
      truthy (dictLookup "token" t.spec) &&
      truthy (pyOr (dictLookup "remote_port" t.spec)
        (dictLookup "listen_port" t.spec))) = true) :
    Event.stopCall t.id ∈ (resetOneLocal w st t).2 := by
  obtain ⟨tr, htr, _⟩ := stop_server_trace_shape w st t.id
  simp only [resetOneLocal, hc, if_true]
  split <;> (try split) <;> (rw [htr]; simp)

theorem resetLocal_stopCall (ws : String → World) (st : ManagerState)
    (l : List TunnelRow) (t : TunnelRow) (hmem : t ∈ l)
    (hc : (truthy (dictLookup "remote_addr" t.spec) &&
      truthy (dictLookup "token" t.spec) &&
      truthy (pyOr (dictLookup "remote_port" t.spec)
        (dictLookup "listen_port" t.spec))) = true) :
    Event.stopCall t.id ∈ (resetLocal ws st l).2 := by
  induction l generalizing st with
  | nil => cases hmem
  | cons hd tl ih =>
    rcases List.mem_cons.mp hmem with rfl | hmem2
    · simp only [resetLocal]
      exact List.mem_append_left _ (resetOneLocal_stopCall _ _ _ hc)
    · simp only [resetLocal]
      exact List.mem_append_right _ (ih _ hmem2)

/-! ## Concrete scenario objects -/

/-- A cooperative environment: primary binary present, every process stays
alive, the bound port is reachable, every file deletion succeeds. -/
def demoWorld : World :=
  ⟨true, true, 42, fun _ => none, true, false, true, false, fun _ => true⟩

/-- Same environment, except every launched process exits immediately with
code 1 (the spec's scenario of a binary that dies at once). -/
def deadWorld : World :=
  ⟨true, true, 42, fun _ => some 1, true, false, true, false, fun _ => true⟩

/-- A fresh manager. -/
def emptyMgr : ManagerState := ⟨[], [], []⟩

/-- The manager state after one successful `start_server("t1", ...)`. -/
def busyMgr : ManagerState :=
  (start_server demoWorld emptyMgr "t1" "0.0.0.0:23333" "abc" 8989).1

/-! ## Claim theorems -/

/-- **C1.**  For every tunnel id the lifecycle manager keeps at most one
live server process per tunnel id: when `start_server` is called while a
record for the id already exists (with a well-formed `remote_addr` and a
resolvable binary, so the call reaches a launch), the call's event trace
contains exactly one stop — a single `stopCall` of that id, with no stop
event anywhere else in the trace — and the launch of the new process
occurs strictly after it.  Starting twice for the same tunnel id therefore
never accumulates two live processes bound to the same port: the existing
record is stopped exactly once before the replacement is launched. -/
theorem start_server_stops_existing_exactly_once_before_launch
    (w : World) (st : ManagerState) (tid ra tok : String) (pp : Int)
    (portStr : String)
    (hmem : dictMem tid st.active_servers = true)
    (hra : pySplitSecond ra = some portStr)
    (hbin : w.primaryFound = true ∨ w.fallbackFound = true) :
    ∃ pre post b,
      (start_server w st tid ra tok pp).2.2 = pre ++ Event.stopCall tid :: post ∧
      (∀ e ∈ pre, e.isStopCall = false) ∧
      (∀ e ∈ post, e.isStopCall = false) ∧
      Event.launched tid w.newPid b ∈ post := by
  obtain ⟨tr, htr, htr2⟩ := stop_server_trace_shape w st tid
  obtain ⟨b, hb⟩ := startLaunchPhase_launched w (stop_server w st tid).1
    tid ra tok pp portStr hbin
  refine ⟨[Event.logWarning ("Rathole server for tunnel " ++ tid ++
      " already exists, stopping it first")],
    tr ++ (startLaunchPhase w (stop_server w st tid).1 tid ra tok pp portStr).2.2,
    b, ?_, ?_, ?_, ?_⟩
  · simp only [start_server, hra, hmem, if_true]
    rw [htr]
    simp
  · intro e he
    simp only [List.mem_singleton] at he
    subst he
    simp
  · intro e he
    rcases List.mem_append.mp he with h | h
    · exact (htr2 e h).1
    · exact startLaunchPhase_trace_no_stop _ _ _ _ _ _ _ e h
  · exact List.mem_append_right _ hb

/-- Witness for C1: restarting `"t1"` on a manager that already holds a
live record for it. -/
theorem start_server_stops_existing_exactly_once_before_launch_witness :
    dictMem "t1" busyMgr.active_servers = true ∧
    pySplitSecond "0.0.0.0:23333" = some "23333" ∧
    demoWorld.primaryFound = true ∧
    ∃ pre post b,
      (start_server demoWorld busyMgr "t1" "0.0.0.0:23333" "abc" 8989).2.2 =
        pre ++ Event.stopCall "t1" :: post ∧
      (∀ e ∈ pre, e.isStopCall = false) ∧
      (∀ e ∈ post, e.isStopCall = false) ∧
      Event.launched "t1" demoWorld.newPid b ∈ post :=
  ⟨by decide, by decide, by decide,
    start_server_stops_existing_exactly_once_before_launch demoWorld busyMgr
      "t1" "0.0.0.0:23333" "abc" 8989 "23333" (by decide) (by decide)
      (Or.inl (by decide))⟩

/-- **C2.**  For every tunnel id, a successful `start_server` followed by
`stop_server` leaves no entry for the id in `active_servers` (neither the
process entry nor the synthetic `_log` entry), no entry in
`server_configs`, and no rendered configuration file for the tunnel on
disk (the deletion oracle granting the `unlink`). -/
theorem start_then_stop_leaves_no_state
    (w w' : World) (st : ManagerState) (tid ra tok : String) (pp : Int)
    (hok : (start_server w st tid ra tok pp).2.1 = Except.ok true)
    (hunlink : w'.unlinkOk (configPath tid) = true) :
    dictLookup tid
      (stop_server w' (start_server w st tid ra tok pp).1 tid).1.active_servers =
      none ∧
    dictLookup (tid ++ "_log")
      (stop_server w' (start_server w st tid ra tok pp).1 tid).1.active_servers =
      none ∧
    dictLookup tid
      (stop_server w' (start_server w st tid ra tok pp).1 tid).1.server_configs =
      none ∧
    dictMem (configPath tid)
      (stop_server w' (start_server w st tid ra tok pp).1 tid).1.disk = false := by
  obtain ⟨portStr, st1, hps, hact, hcfg, L, hdisk⟩ :=
    start_server_ok_inversion w st tid ra tok pp hok
  have hA : dictLookup tid (start_server w st tid ra tok pp).1.active_servers =
      some (ServerEntry.proc w.newPid) := by
    rw [hact]; exact dictLookup_dictSet_self _ _ _
  have hC : dictLookup tid (start_server w st tid ra tok pp).1.server_configs =
      some ⟨ra, tok, pp, "0.0.0.0:" ++ portStr, configPath tid⟩ := by
    rw [hcfg]; exact dictLookup_dictSet_self _ _ _
  have hD : dictMem (configPath tid) (start_server w st tid ra tok pp).1.disk = true := by
    rw [hdisk]
    apply dictMem_of_lookup_some
    rw [dictLookup_dictSet_ne (Ne.symm (logPath_ne_configPath tid)),
      dictLookup_dictSet_self]
  exact ⟨stop_server_active_tid _ _ _,
    stop_server_active_log _ _ _ _ hA,
    stop_server_configs_tid _ _ _,
    stop_server_disk_clean _ _ _ _ hC hD hunlink⟩

/-- Witness for C2 at a concrete start/stop pair. -/
theorem start_then_stop_leaves_no_state_witness :
    (start_server demoWorld emptyMgr "t1" "0.0.0.0:23333" "abc" 8989).2.1 =
      Except.ok true ∧
    demoWorld.unlinkOk (configPath "t1") = true ∧
    dictLookup "t1"
      (stop_server demoWorld
        (start_server demoWorld emptyMgr "t1" "0.0.0.0:23333" "abc" 8989).1
        "t1").1.active_servers = none ∧
    dictMem (configPath "t1")
      (stop_server demoWorld
        (start_server demoWorld emptyMgr "t1" "0.0.0.0:23333" "abc" 8989).1
        "t1").1.disk = false :=
  ⟨by decide, by decide,
    (start_then_stop_leaves_no_state demoWorld demoWorld emptyMgr
      "t1" "0.0.0.0:23333" "abc" 8989 (by decide) (by decide)).1,
    (start_then_stop_leaves_no_state demoWorld demoWorld emptyMgr
      "t1" "0.0.0.0:23333" "abc" 8989 (by decide) (by decide)).2.2.2⟩

/-- **C3** (code bug, evaluated at the failing input).  The claim says
`get_active_servers` returns exactly the live tunnel ids, pruning dead
records.  In the source, however, `active_servers` also holds the synthetic
`tunnel_id + "_log"` entry whose value is a *file* handle; the loop calls
`.poll()` on every value, and a file handle has no `poll`, so after any
successful start the very first iteration hits the `_log` entry and raises
`AttributeError` instead of returning a list.  This theorem evaluates the
embedded code at the failing input: a state after one successful
`start_server` whose process is alive and `is_running` confirms it, yet
`get_active_servers` raises. -/
theorem get_active_servers_raises_after_successful_start :
    (start_server demoWorld emptyMgr "t1" "0.0.0.0:23333" "abc" 8989).2.1 =
      Except.ok true ∧
    is_running demoWorld
      (start_server demoWorld emptyMgr "t1" "0.0.0.0:23333" "abc" 8989).1 "t1" =
      Except.ok true ∧
    (get_active_servers demoWorld
      (start_server demoWorld emptyMgr "t1" "0.0.0.0:23333" "abc" 8989).1).2 =
      Except.error "AttributeError: poll" := by
  refine ⟨by decide, by decide, by decide⟩

/-- **C4, counterexample.**  The claim asserts that after a
dead-on-arrival launch "the config file remain[s] on disk only if its
removal itself fails".  At a concrete failing start (process exits with
code 1, deletions always succeed) the start raises, yet the rendered
config file is still on disk and the trace shows no unlink attempt and no
unlink failure: the file remains even though removal never failed — it was
never attempted.  -/
theorem start_dead_config_file_never_removed_counterexample :
    (start_server deadWorld emptyMgr "t1" "0.0.0.0:23333" "abc" 8989).2.1 ≠
      Except.ok true ∧
    deadWorld.unlinkOk (configPath "t1") = true ∧
    ¬ (dictMem (configPath "t1")
        (start_server deadWorld emptyMgr "t1" "0.0.0.0:23333" "abc" 8989).1.disk =
          true →
      (∃ e ∈ (start_server deadWorld emptyMgr "t1" "0.0.0.0:23333" "abc" 8989).2.2,
        e = Event.unlinkFailed (configPath "t1") ∨
        e = Event.unlinked (configPath "t1"))) := by
  refine ⟨by decide, by decide, ?_⟩
  intro h
  have := h (by decide)
  revert this
  decide

/-- **C4, amended.**  If the launched process has already exited when
`start_server` re-checks liveness after its ~1 s pause, `start_server`
raises an error whose message contains the exit code and the tail (last
500 characters) of the log file, and afterwards no active-map entry
(process or `_log`) and no `server_configs` entry for the tunnel remains —
but the rendered config file always remains on disk: this rollback path
never attempts to remove it. -/
theorem start_dead_process_rolls_back_maps_keeps_config_file
    (w : World) (st : ManagerState) (tid ra tok : String) (pp : Int)
    (portStr : String) (c : Int)
    (hra : pySplitSecond ra = some portStr)
    (hP : w.primaryFound = true)
    (hpoll : w.poll w.newPid = some c)
    (hread : w.logReadOk = true) :
    ∃ msg,
      (start_server w st tid ra tok pp).2.1 = Except.error msg ∧
      strContains ("exit code: " ++ toString c) msg ∧
      strContains (strTail (fullPreamble tid ("0.0.0.0:" ++ portStr) pp
        (configPath tid) (renderConfig tid ("0.0.0.0:" ++ portStr) tok pp)) 500) msg ∧
      dictLookup tid (start_server w st tid ra tok pp).1.active_servers = none ∧
      dictLookup (tid ++ "_log")
        (start_server w st tid ra tok pp).1.active_servers = none ∧
      dictLookup tid (start_server w st tid ra tok pp).1.server_configs = none ∧
      dictMem (configPath tid) (start_server w st tid ra tok pp).1.disk = true := by
  have key : ∀ st1 : ManagerState,
      ∃ msg,
        (startLaunchPhase w st1 tid ra tok pp portStr).2.1 = Except.error msg ∧
        strContains ("exit code: " ++ toString c) msg ∧
        strContains (strTail (fullPreamble tid ("0.0.0.0:" ++ portStr) pp
          (configPath tid) (renderConfig tid ("0.0.0.0:" ++ portStr) tok pp)) 500)
          msg ∧
        dictLookup tid
          (startLaunchPhase w st1 tid ra tok pp portStr).1.active_servers = none ∧
        dictLookup (tid ++ "_log")
          (startLaunchPhase w st1 tid ra tok pp portStr).1.active_servers = none ∧
        dictLookup tid
          (startLaunchPhase w st1 tid ra tok pp portStr).1.server_configs = none ∧
        dictMem (configPath tid)
          (startLaunchPhase w st1 tid ra tok pp portStr).1.disk = true := by
    intro st1
    obtain ⟨hres, d1, d2, d3, d4⟩ :=
      startLaunchPhase_dead w st1 tid ra tok pp portStr c hP hpoll hread
    refine ⟨_, hres, ?_, ?_, d1, d2, d3, d4⟩
    · refine ⟨("rathole server failed to start (" : String).data,
        ("): " : String).data ++ (strTail (fullPreamble tid ("0.0.0.0:" ++ portStr)
          pp (configPath tid) (renderConfig tid ("0.0.0.0:" ++ portStr) tok pp))
          500).data, ?_⟩
      have hlit : ("rathole server failed to start (exit code: " : String).data =
          ("rathole server failed to start (" : String).data ++
            ("exit code: " : String).data := by decide
      simp [String.data_append, hlit]
    · refine ⟨("rathole server failed to start (exit code: " ++ toString c ++
        "): " : String).data, [], ?_⟩
      simp [String.data_append]
  cases hm : dictMem tid st.active_servers with
  | true =>
    simp only [start_server, hra, hm, if_true]
    exact key _
  | false =>
    simp only [start_server, hra, hm, if_false]
    exact key _

/-- Witness for the amended C4 at the concrete dead-start scenario; the
exit code is 1 as in the spec's example. -/
theorem start_dead_process_rolls_back_witness :
    pySplitSecond "0.0.0.0:23333" = some "23333" ∧
    deadWorld.poll deadWorld.newPid = some 1 ∧
    ∃ msg,
      (start_server deadWorld emptyMgr "t1" "0.0.0.0:23333" "abc" 8989).2.1 =
        Except.error msg ∧
      strContains ("exit code: " ++ toString (1 : Int)) msg ∧
      strContains (strTail (fullPreamble "t1" ("0.0.0.0:" ++ "23333") 8989
        (configPath "t1") (renderConfig "t1" ("0.0.0.0:" ++ "23333") "abc" 8989)) 500)
        msg ∧
      dictLookup "t1"
        (start_server deadWorld emptyMgr "t1" "0.0.0.0:23333" "abc" 8989).1.active_servers =
        none ∧
      dictLookup ("t1" ++ "_log")
        (start_server deadWorld emptyMgr "t1" "0.0.0.0:23333" "abc" 8989).1.active_servers =
        none ∧
      dictLookup "t1"
        (start_server deadWorld emptyMgr "t1" "0.0.0.0:23333" "abc" 8989).1.server_configs =
        none ∧
      dictMem (configPath "t1")
        (start_server deadWorld emptyMgr "t1" "0.0.0.0:23333" "abc" 8989).1.disk = true :=
  ⟨by decide, by decide,
    start_dead_process_rolls_back_maps_keeps_config_file deadWorld emptyMgr
      "t1" "0.0.0.0:23333" "abc" 8989 "23333" 1 (by decide) (by decide)
      (by decide) (by decide)⟩

/-- A stale `server_configs` record for `"t9"` with no live record. -/
def staleCfg : ServerConfig :=
  ⟨"0.0.0.0:23333", "abc", 8989, "0.0.0.0:23333", configPath "t9"⟩

/-- A manager that tracks only the stale config (and its file on disk)
for `"t9"`, with no `active_servers` entry. -/
def staleMgr : ManagerState :=
  ⟨[], [("t9", staleCfg)], [(configPath "t9", "old contents")]⟩

/-- **C5.**  `stop_server` never raises: it is a total state transformer
(every termination failure is absorbed — the resulting state does not
depend on whether `terminate`/`wait` raised), it always leaves no record
under the tunnel id in either map; when no record exists the active map is
untouched, and any stale rendered-config file still tracked under the id
is removed (when the OS permits); with no record and no stale config entry
the call is a complete no-op. -/
theorem stop_server_never_raises_and_noop_semantics
    (w : World) (b : Bool) (st : ManagerState) (tid : String) :
    (stop_server { w with termRaises := b } st tid).1 = (stop_server w st tid).1 ∧
    dictLookup tid (stop_server w st tid).1.active_servers = none ∧
    dictLookup tid (stop_server w st tid).1.server_configs = none ∧
    (dictMem tid st.active_servers = false →
      (stop_server w st tid).1.active_servers = st.active_servers) ∧
    (∀ cfg, dictLookup tid st.server_configs = some cfg →
      dictMem cfg.config_path st.disk = true →
      w.unlinkOk cfg.config_path = true →
      dictMem cfg.config_path (stop_server w st tid).1.disk = false) ∧
    (dictMem tid st.active_servers = false →
      dictLookup tid st.server_configs = none →
      (stop_server w st tid).1 = st) := by
  refine ⟨stop_server_state_ignores_termination _ _ _ _ rfl,
    stop_server_active_tid _ _ _,
    stop_server_configs_tid _ _ _,
    ?_,
    fun cfg hC hm hok => stop_server_disk_clean _ _ _ _ hC hm hok,
    ?_⟩
  · intro hm
    exact stop_server_active_unchanged _ _ _
      (dictLookup_eq_none_of_mem_false hm)
  · intro hm hC
    exact stop_server_noop _ _ _ (dictLookup_eq_none_of_mem_false hm) hC

/-- Witness for C5: stopping an unknown tunnel id on a manager that still
tracks a stale rendered-config file for it. -/
theorem stop_server_never_raises_witness :
    dictMem "t9" staleMgr.active_servers = false ∧
    dictLookup "t9" staleMgr.server_configs = some staleCfg ∧
    dictMem staleCfg.config_path staleMgr.disk = true ∧
    (stop_server demoWorld staleMgr "t9").1.active_servers =
      staleMgr.active_servers ∧
    dictMem staleCfg.config_path (stop_server demoWorld staleMgr "t9").1.disk =
      false :=
  ⟨by decide, by decide, by decide,
    (stop_server_never_raises_and_noop_semantics demoWorld true staleMgr
      "t9").2.2.2.1 (by decide),
    (stop_server_never_raises_and_noop_semantics demoWorld true staleMgr
      "t9").2.2.2.2.1 staleCfg (by decide) (by decide) (by decide)⟩

theorem computeNextReset_ne_none_iff (e : Bool) (i : Int) (l : Option Int)
    (now : Int) :
    (computeNextReset e i l now ≠ none) ↔ (e = true ∧ i ≠ 0) := by
  by_cases hcond : e = true ∧ i ≠ 0 <;> simp [computeNextReset, hcond]

/-- **C6.**  After a successful run of the config-update endpoint,
`next_reset` is non-null iff `enabled` is true and `interval_minutes` is
set (non-zero); with `interval_minutes=10`, `enabled=true` and a stored
`last_reset = T`, the computed `next_reset` is exactly `T` plus 10 minutes;
and with `enabled=false`, `next_reset` is set to null regardless of
`last_reset`. -/
theorem update_reset_config_next_reset_schedule
    (db : List (String × CoreResetConfig)) (core : String)
    (upd : ResetConfigUpdate) (now : Int)
    (db' : List (String × CoreResetConfig)) (c' : CoreResetConfig)
    (h : update_reset_config db core upd now = (db', Except.ok c')) :
    ((c'.next_reset ≠ none) ↔ (c'.enabled = true ∧ c'.interval_minutes ≠ 0)) ∧
    (∀ T : Int, upd.enabled = some true → upd.interval_minutes = some 10 →
      ((dictLookup core db).getD (defaultResetConfig core)).last_reset = some T →
      c'.next_reset = some (T + 10 * 60)) ∧
    (upd.enabled = some false → c'.next_reset = none) := by
  by_cases hcore : core ∈ CORES
  · cases hie : upd.interval_minutes with
    | none =>
      cases he : upd.enabled with
      | none =>
        simp only [update_reset_config, hcore, if_true, hie, he] at h
        rw [Prod.mk.injEq] at h
        obtain ⟨-, h2⟩ := h
        injection h2 with h2
        subst h2
        refine ⟨computeNextReset_ne_none_iff _ _ _ _, ?_, ?_⟩
        · intro T ht h10 h3
          exact absurd h10 (by simp)
        · intro hf
          exact absurd hf (by simp)
      | some e =>
        simp only [update_reset_config, hcore, if_true, hie, he] at h
        rw [Prod.mk.injEq] at h
        obtain ⟨-, h2⟩ := h
        injection h2 with h2
        subst h2
        refine ⟨computeNextReset_ne_none_iff _ _ _ _, ?_, ?_⟩
        · intro T ht h10 h3
          exact absurd h10 (by simp)
        · intro hf
          injection hf with hf
          subst hf
          simp [computeNextReset]
    | some m =>
      by_cases hm : m < 1
      · simp [update_reset_config, hcore, hie, hm] at h
      · cases he : upd.enabled with
        | none =>
          simp only [update_reset_config, hcore, if_true, hie, he, hm, if_false] at h
          rw [Prod.mk.injEq] at h
          obtain ⟨-, h2⟩ := h
          injection h2 with h2
          subst h2
          refine ⟨computeNextReset_ne_none_iff _ _ _ _, ?_, ?_⟩
          · intro T ht h10 h3
            exact absurd ht (by simp)
          · intro hf
            exact absurd hf (by simp)
        | some e =>
          simp only [update_reset_config, hcore, if_true, hie, he, hm, if_false] at h
          rw [Prod.mk.injEq] at h
          obtain ⟨-, h2⟩ := h
          injection h2 with h2
          subst h2
          refine ⟨computeNextReset_ne_none_iff _ _ _ _, ?_, ?_⟩
          · intro T ht h10 h3
            injection h10 with h10
            subst h10
            injection ht with ht
            subst ht
            simp [computeNextReset, h3]
          · intro hf
            injection hf with hf
            subst hf
            simp [computeNextReset]
  · simp [update_reset_config, hcore] at h

/-- A persisted schedule row for rathole: disabled, interval 7,
`last_reset = 1000` seconds. -/
def demoDb : List (String × CoreResetConfig) :=
  [("rathole", ⟨"rathole", false, 7, some 1000, none, none⟩)]

/-- Witness for C6: enabling with interval 10 over `demoDb` yields
`next_reset = 1000 + 600`. -/
theorem update_reset_config_next_reset_schedule_witness :
    update_reset_config demoDb "rathole" ⟨some true, some 10⟩ 5000 =
      ([("rathole", ⟨"rathole", true, 10, some 1000, some 1600, some 5000⟩)],
       Except.ok ⟨"rathole", true, 10, some 1000, some 1600, some 5000⟩) ∧
    (⟨"rathole", true, 10, some 1000, some 1600, some 5000⟩ :
      CoreResetConfig).next_reset = some (1000 + 10 * 60) :=
  ⟨by decide,
    (update_reset_config_next_reset_schedule demoDb "rathole"
      ⟨some true, some 10⟩ 5000
      [("rathole", ⟨"rathole", true, 10, some 1000, some 1600, some 5000⟩)]
      ⟨"rathole", true, 10, some 1000, some 1600, some 5000⟩
      (by decide)).2.1 1000 rfl rfl (by decide)⟩

/-- **C7.**  Calling the config-update endpoint with
`interval_minutes < 1` is rejected with a client error (HTTP 400) and the
stored configuration is returned unchanged — including when the same
request also supplies an `enabled` flag, because the handler raises before
any commit. -/
theorem update_reset_config_rejects_interval_below_one
    (db : List (String × CoreResetConfig)) (core : String)
    (upd : ResetConfigUpdate) (now : Int) (k : Int)
    (hcore : core ∈ CORES) (hk : upd.interval_minutes = some k)
    (hlt : k < 1) :
    update_reset_config db core upd now = (db, Except.error 400) := by
  cases he : upd.enabled <;> simp [update_reset_config, hcore, hk, hlt, he]

/-- Witness for C7: `interval_minutes = 0` together with `enabled = true`
leaves `demoDb` (and its `enabled = false`) untouched. -/
theorem update_reset_config_rejects_interval_below_one_witness :
    "rathole" ∈ CORES ∧
    (⟨some true, some 0⟩ : ResetConfigUpdate).interval_minutes = some 0 ∧
    ((0 : Int) < 1) ∧
    update_reset_config demoDb "rathole" ⟨some true, some 0⟩ 777 =
      (demoDb, Except.error 400) :=
  ⟨by decide, rfl, by decide,
    update_reset_config_rejects_interval_below_one demoDb "rathole"
      ⟨some true, some 0⟩ 777 0 (by decide) rfl (by decide)⟩

/-- **C9.**  `is_running` on a tunnel id with no record returns `false`
without raising; on a process record its result is the fresh liveness poll
`proc.poll() is None` of the current OS world — two worlds that poll
differently give different answers on the same manager state, so nothing
is cached. -/
theorem is_running_unknown_false_and_fresh_poll
    (w w' : World) (st : ManagerState) (tid : String) :
    (dictLookup tid st.active_servers = none →
      is_running w st tid = Except.ok false) ∧
    (∀ pid, dictLookup tid st.active_servers = some (ServerEntry.proc pid) →
      is_running w st tid = Except.ok (w.poll pid == none)) ∧
    (∀ pid c, dictLookup tid st.active_servers = some (ServerEntry.proc pid) →
      w.poll pid = none → w'.poll pid = some c →
      is_running w st tid = Except.ok true ∧
      is_running w' st tid = Except.ok false) := by
  refine ⟨fun h => by simp [is_running, h],
    fun pid h => by simp [is_running, h],
    fun pid c h h1 h2 => ⟨by simp [is_running, h, h1], by simp [is_running, h, h2]⟩⟩

/-- Witness for C9: an unknown id, and the same started state polled by a
live world and by a world in which pid 42 has exited with code 1. -/
theorem is_running_unknown_false_and_fresh_poll_witness :
    dictLookup "zzz" busyMgr.active_servers = none ∧
    is_running demoWorld busyMgr "zzz" = Except.ok false ∧
    dictLookup "t1" busyMgr.active_servers = some (ServerEntry.proc 42) ∧
    is_running demoWorld busyMgr "t1" = Except.ok true ∧
    is_running deadWorld busyMgr "t1" = Except.ok false :=
  ⟨by decide,
    (is_running_unknown_false_and_fresh_poll demoWorld deadWorld busyMgr
      "zzz").1 (by decide),
    by decide,
    ((is_running_unknown_false_and_fresh_poll demoWorld deadWorld busyMgr
      "t1").2.2 42 1 (by decide) (by decide) (by decide)).1,
    ((is_running_unknown_false_and_fresh_poll demoWorld deadWorld busyMgr
      "t1").2.2 42 1 (by decide) (by decide) (by decide)).2⟩

/-! ### C8 / C10 support -/

theorem mem_keys_of_lookup_some {k : String} {m : List (String × α)} {v : α}
    (h : dictLookup k m = some v) : k ∈ m.map Prod.fst := by
  induction m with
  | nil => simp [dictLookup] at h
  | cons p rest ih =>
    by_cases h1 : p.1 = k
    · simp [h1]
    · rw [dictLookup, if_neg h1] at h
      exact List.mem_cons.mpr (Or.inr (ih h))

theorem stopAll_stopCall_mem (ws : String → World) (st : ManagerState)
    (ks : List String) (k : String) (hk : k ∈ ks) :
    Event.stopCall k ∈ (stopAll ws st ks).2 := by
  induction ks generalizing st with
  | nil => cases hk
  | cons hd tl ih =>
    rcases List.mem_cons.mp hk with rfl | hk2
    · obtain ⟨tr, htr, -⟩ := stop_server_trace_shape (ws k) st k
      simp only [stopAll]
      exact List.mem_append_left _ (htr ▸ List.mem_cons_self _ _)
    · simp only [stopAll]
      exact List.mem_append_right _ (ih _ hk2)

/-- Tunnel `"t1"` of the reset scenario: its required `token` parameter is
missing from the spec bag. -/
def t1Row : TunnelRow :=
  ⟨"t1", "rathole", "active", some "n1",
   [("remote_addr", SpecVal.str "panel.example.com:23333"),
    ("remote_port", SpecVal.int 8989), ("local_port", SpecVal.int 80)]⟩

/-- Tunnel `"t2"` of the reset scenario: fully specified. -/
def t2Row : TunnelRow :=
  ⟨"t2", "rathole", "active", some "n1",
   [("remote_addr", SpecVal.str "0.0.0.0:23334"), ("token", SpecVal.str "abc"),
    ("remote_port", SpecVal.int 8990), ("local_port", SpecVal.int 81)]⟩

/-- Reset-pass environment in which every manager operation and every
remote push succeeds. -/
def demoRW : ResetWorld := ⟨fun _ => demoWorld, fun _ => true⟩

/-- **C8, counterexample.**  The claim says a tunnel whose required
parameter is missing "has its local restart skipped (logged)".  The skip
is silent in the source: the `if` guard for the missing token simply does
not fire and nothing is logged.  In the concrete two-tunnel pass (t1
missing its token, t2 complete, every external call succeeding), t1's
local restart is indeed skipped — no stop and no launch for t1 — yet the
only logger record produced by the whole pass is t2's successful-start
info line; no record logs t1's skip, refuting the "(logged)" part. -/
theorem reset_skip_not_logged_counterexample :
    (reset_core_rathole demoRW emptyMgr [t1Row, t2Row] ["n1"]).2.countP
      (Event.isStopCallOf "t1") = 0 ∧
    (reset_core_rathole demoRW emptyMgr [t1Row, t2Row] ["n1"]).2.countP
      (Event.isLaunchOf "t1") = 0 ∧
    (reset_core_rathole demoRW emptyMgr [t1Row, t2Row] ["n1"]).2.filter
      Event.isLog =
      [Event.logInfo "Started Rathole server for tunnel t2 on 0.0.0.0:23334"] := by
  exact ⟨by decide, by decide, by decide⟩

/-- **C8, amended.**  During a reset pass over the active rathole tunnels,
a tunnel whose required parameter (token) is missing has its local restart
skipped silently (no stop, no launch, and no log record for the skip),
while every other tunnel is still restarted (stopped and launched exactly
once) and its remote configuration still pushed; and, in general, every
tunnel of the batch with a complete parameter set gets its stop/restart
attempt regardless of what happens to any other tunnel — each tunnel's
local-restart and remote-apply failures are caught by per-tunnel handlers,
so one tunnel's failure never aborts the batch. -/
theorem reset_skips_missing_param_and_never_aborts :
    ((reset_core_rathole demoRW emptyMgr [t1Row, t2Row] ["n1"]).2.countP
        (Event.isStopCallOf "t1") = 0 ∧
      (reset_core_rathole demoRW emptyMgr [t1Row, t2Row] ["n1"]).2.countP
        (Event.isLaunchOf "t1") = 0 ∧
      (reset_core_rathole demoRW emptyMgr [t1Row, t2Row] ["n1"]).2.countP
        (Event.isStopCallOf "t2") = 1 ∧
      (reset_core_rathole demoRW emptyMgr [t1Row, t2Row] ["n1"]).2.countP
        (Event.isLaunchOf "t2") = 1 ∧
      (reset_core_rathole demoRW emptyMgr [t1Row, t2Row] ["n1"]).2.countP
        (Event.isApplyOf "n1" "t2") = 1) ∧
    (∀ (rw : ResetWorld) (st : ManagerState) (tunnels : List TunnelRow)
      (nodes : List String) (t : TunnelRow),
      t ∈ tunnels → t.core = "rathole" → t.status = "active" →
      (truthy (dictLookup "remote_addr" t.spec) &&
        truthy (dictLookup "token" t.spec) &&
        truthy (pyOr (dictLookup "remote_port" t.spec)
          (dictLookup "listen_port" t.spec))) = true →
      Event.stopCall t.id ∈ (reset_core_rathole rw st tunnels nodes).2) := by
  constructor
  · exact ⟨by decide, by decide, by decide, by decide, by decide⟩
  · intro rw st tunnels nodes t hmem hcore hstatus hc
    have hfilter : t ∈ tunnels.filter
        (fun t => t.core == "rathole" && t.status == "active") :=
      List.mem_filter.mpr ⟨hmem, by simp [hcore, hstatus]⟩
    simp only [reset_core_rathole]
    exact List.mem_append_left _ (resetLocal_stopCall _ _ _ _ hfilter hc)

/-- Witness for the amended C8: the general no-abort clause applied to
`t2Row` in the concrete scenario. -/
theorem reset_skips_missing_param_and_never_aborts_witness :
    t2Row ∈ [t1Row, t2Row] ∧ t2Row.core = "rathole" ∧
    t2Row.status = "active" ∧
    Event.stopCall t2Row.id ∈
      (reset_core_rathole demoRW emptyMgr [t1Row, t2Row] ["n1"]).2 :=
  ⟨by simp, rfl, rfl,
    reset_skips_missing_param_and_never_aborts.2 demoRW emptyMgr
      [t1Row, t2Row] ["n1"] t2Row (by simp) rfl rfl (by decide)⟩

/-- **C10.**  After every successful `start_server(tid, ...)`, the active
map contains — besides the process entry — a synthetic entry under the key
`tid ++ "_log"` whose value is the open log file handle rather than a
process handle; `cleanup_all` iterates over this synthetic entry exactly
like a real process entry (its pass emits a `stop_server` call for the
synthetic key), and `get_active_servers` likewise polls it exactly like a
process entry — concretely, its iteration over the post-start state hits
the file handle and raises `AttributeError`. -/
theorem start_server_stores_synthetic_log_entry
    (w : World) (st : ManagerState) (tid ra tok : String) (pp : Int)
    (hok : (start_server w st tid ra tok pp).2.1 = Except.ok true) :
    dictLookup (tid ++ "_log")
      (start_server w st tid ra tok pp).1.active_servers =
      some (ServerEntry.logFile 0) ∧
    Event.stopCall (tid ++ "_log") ∈
      (cleanup_all (fun _ => w) (start_server w st tid ra tok pp).1).2 ∧
    (get_active_servers demoWorld busyMgr).2 =
      Except.error "AttributeError: poll" := by
  obtain ⟨portStr, st1, -, hact, -, -⟩ :=
    start_server_ok_inversion w st tid ra tok pp hok
  have hlog : dictLookup (tid ++ "_log")
      (start_server w st tid ra tok pp).1.active_servers =
      some (ServerEntry.logFile 0) := by
    rw [hact, dictLookup_dictSet_ne (Ne.symm (ne_append_log tid)),
      dictLookup_dictSet_self]
  refine ⟨hlog, ?_, by decide⟩
  exact stopAll_stopCall_mem _ _ _ _ (mem_keys_of_lookup_some hlog)

/-- Witness for C10 at the concrete successful start. -/
theorem start_server_stores_synthetic_log_entry_witness :
    (start_server demoWorld emptyMgr "t1" "0.0.0.0:23333" "abc" 8989).2.1 =
      Except.ok true ∧
    dictLookup ("t1" ++ "_log")
      (start_server demoWorld emptyMgr "t1" "0.0.0.0:23333" "abc" 8989).1.active_servers =
      some (ServerEntry.logFile 0) ∧
    Event.stopCall ("t1" ++ "_log") ∈
      (cleanup_all (fun _ => demoWorld)
        (start_server demoWorld emptyMgr "t1" "0.0.0.0:23333" "abc" 8989).1).2 :=
  ⟨by decide,
    (start_server_stores_synthetic_log_entry demoWorld emptyMgr "t1"
      "0.0.0.0:23333" "abc" 8989 (by decide)).1,
    (start_server_stores_synthetic_log_entry demoWorld emptyMgr "t1"
      "0.0.0.0:23333" "abc" 8989 (by decide)).2.1⟩

end Smite
